import Mathlib

/-!
Verification of the GPX-to-mission-plan converter (`gps_parser.py`).

The development shallowly embeds the three components of the pipeline:

* `parse_gpx`  — track-log parsing with namespace-tolerant tag resolution
  and per-point error recovery;
* `filter_coords_by_bbox` — axis-aligned bounding-box filtering;
* `create_plan_json` — mission-plan construction (waypoint commands,
  derived home position, fixed metadata);
* `mainRun` — the CLI driver's control flow and exit-code taxonomy.

Python floats are modelled as rationals (`ℚ`); the fallible string-to-float
conversion `float(s)` is modelled by pre-parsed `Option ℚ` values carried by
the document model (`none` = the string does not parse as a number).
-/

/-- A parsed track point `(lat, lon, alt)` as produced by `parse_gpx`. -/
structure TrackPoint where
  lat : ℚ
  lon : ℚ
  alt : ℚ
  deriving DecidableEq, Repr

instance : Inhabited TrackPoint := ⟨⟨0, 0, 0⟩⟩

/-- Embedding of `filter_coords_by_bbox` (gps_parser.py lines 59-79).
The Python function accepts `None` (the parser's failure sentinel) and
returns `[]` in that case; otherwise it normalizes the two corners with
per-axis `min`/`max` and keeps, in order, exactly the points inside the
closed box.  The Python accumulator loop (`filtered = []; ... append`) is
rendered as a left fold appending to the accumulator. -/
def filter_coords_by_bbox (coords : Option (List TrackPoint))
    (lat1 lon1 lat2 lon2 : ℚ) : List TrackPoint :=
  match coords with
  | none => []
  | some cs =>
    let min_lat := min lat1 lat2
    let max_lat := max lat1 lat2
    let min_lon := min lon1 lon2
    let max_lon := max lon1 lon2
    cs.foldl (fun filtered p =>
      if min_lat ≤ p.lat ∧ p.lat ≤ max_lat ∧ min_lon ≤ p.lon ∧ p.lon ≤ max_lon
      then filtered ++ [p] else filtered) []

/-- The retention condition of the bounding-box filter, as a Boolean
predicate on a point (used to state the filter's characterization). -/
def inBbox (lat1 lon1 lat2 lon2 : ℚ) (p : TrackPoint) : Bool :=
  decide (min lat1 lat2 ≤ p.lat ∧ p.lat ≤ max lat1 lat2 ∧
          min lon1 lon2 ≤ p.lon ∧ p.lon ≤ max lon1 lon2)

/-- Embedding of Python's `range(start, stop, step)` for a positive `step`:
the arithmetic progression `start, start+step, ...` whose length is
`max(0, ceil((stop-start)/step))` — CPython's documented length formula,
here `(stop - start + step - 1) / step` in truncated `ℕ` arithmetic. -/
def pyRange (start stop step : ℕ) : List ℕ :=
  List.range' start ((stop - start + step - 1) / step) step

/-- One mission item as built in the loop body of `create_plan_json`
(gps_parser.py lines 105-123).  The heterogeneous 7-slot `params` list
`[0.0, acceptance_radius, 0.0, None, lat, lon, alt]` is rendered as seven
fields, with the nullable yaw slot as `Option ℚ`; the JSON key `"type"` is
rendered as the field `itemType`. -/
structure PlanItem where
  amslAltAboveTerrain : Option ℚ
  altitude : ℚ
  altitudeMode : ℕ
  autoContinue : Bool
  command : ℕ
  doJumpId : ℕ
  frame : ℕ
  param1 : ℚ
  param2 : ℚ
  param3 : ℚ
  param4 : Option ℚ
  param5 : ℚ
  param6 : ℚ
  param7 : ℚ
  itemType : String
  deriving DecidableEq, Repr

/-- The item built for one selected coordinate: `alt = default_alt` is used
both for the `Altitude` field and for the seventh parameter slot. -/
def mkItem (p : TrackPoint) (jid : ℕ) (default_alt acceptance_radius : ℚ) :
    PlanItem :=
  { amslAltAboveTerrain := none
    altitude := default_alt
    altitudeMode := 1
    autoContinue := true
    command := 16
    doJumpId := jid
    frame := 3
    param1 := 0
    param2 := acceptance_radius
    param3 := 0
    param4 := none
    param5 := p.lat
    param6 := p.lon
    param7 := default_alt
    itemType := "SimpleItem" }

/-- The `mission` block of the output document. -/
structure Mission where
  cruiseSpeed : ℕ
  firmwareType : ℕ
  hoverSpeed : ℕ
  items : List PlanItem
  plannedHomePosition : List ℚ
  vehicleType : ℕ
  version : ℕ
  deriving DecidableEq, Repr

/-- The always-empty `geoFence` block. -/
structure GeoFence where
  circles : List Unit
  polygons : List Unit
  version : ℕ
  deriving DecidableEq, Repr

/-- The always-empty `rallyPoints` block. -/
structure RallyPoints where
  points : List Unit
  version : ℕ
  deriving DecidableEq, Repr

/-- The root output document of `create_plan_json`. -/
structure Plan where
  fileType : String
  groundStation : String
  version : ℕ
  mission : Mission
  geoFence : GeoFence
  rallyPoints : RallyPoints
  deriving DecidableEq, Repr

/-- Embedding of `create_plan_json` (gps_parser.py lines 81-157).
Returns `none` when `coords` is empty; otherwise derives the planned home
position from `coords[0]`, iterates `for i in range(0, len(coords), step)`
building one item per selected index with `do_jump_id` counting up from 1
(rendered by `List.enumFrom 1`), re-checks that at least one item was
produced, and assembles the fixed-schema document.  The indices produced
by `pyRange` are all in bounds, so the `getD` default (the head element)
is never used. -/
def create_plan_json (coords : List TrackPoint) (step : ℕ)
    (default_alt acceptance_radius : ℚ) : Option Plan :=
  match coords with
  | [] => none
  | c0 :: rest =>
    let planned_home : List ℚ := [c0.lat, c0.lon, default_alt]
    let idxs := pyRange 0 (c0 :: rest).length step
    let items := (List.enumFrom 1 idxs).map (fun ki =>
      mkItem ((c0 :: rest).getD ki.2 c0) ki.1 default_alt acceptance_radius)
    if items = [] then none
    else some
      { fileType := "Plan"
        groundStation := "QGroundControl"
        version := 1
        mission :=
          { cruiseSpeed := 5
            firmwareType := 4
            hoverSpeed := 5
            items := items
            plannedHomePosition := planned_home
            vehicleType := 4
            version := 2 }
        geoFence := { circles := [], polygons := [], version := 1 }
        rallyPoints := { points := [], version := 1 } }

section FilterLemmas

/-- The accumulator loop of the filter, characterized as `List.filter`. -/
theorem foldl_filter_aux (q : TrackPoint → Prop) [DecidablePred q] :
    ∀ (cs : List TrackPoint) (acc : List TrackPoint),
      cs.foldl (fun a p => if q p then a ++ [p] else a) acc =
        acc ++ cs.filter (fun p => decide (q p))
  | [], acc => by simp
  | c :: cs, acc => by
    by_cases h : q c
    · simp [h, foldl_filter_aux q cs (acc ++ [c])]
    · simp [h, foldl_filter_aux q cs acc]

/-- The filter on a real point list is `List.filter inBbox`. -/
theorem filter_coords_eq_filter (cs : List TrackPoint) (lat1 lon1 lat2 lon2 : ℚ) :
    filter_coords_by_bbox (some cs) lat1 lon1 lat2 lon2 =
      cs.filter (inBbox lat1 lon1 lat2 lon2) := by
  unfold filter_coords_by_bbox inBbox
  simpa using foldl_filter_aux
    (fun p => min lat1 lat2 ≤ p.lat ∧ p.lat ≤ max lat1 lat2 ∧
              min lon1 lon2 ≤ p.lon ∧ p.lon ≤ max lon1 lon2) cs []

end FilterLemmas

/-- C2: `filter_coords_by_bbox` returns the order-preserving subsequence of
exactly those points whose latitude lies in `[min(lat1,lat2), max(lat1,lat2)]`
and longitude in `[min(lon1,lon2), max(lon1,lon2)]`, boundaries inclusive:
the output is a sublist of the input (order preserved), it equals the
`List.filter` of the inclusive box condition, and a point is in the output
iff it is in the input and satisfies the condition. -/
theorem filter_bbox_characterization (cs : List TrackPoint)
    (lat1 lon1 lat2 lon2 : ℚ) :
    List.Sublist (filter_coords_by_bbox (some cs) lat1 lon1 lat2 lon2) cs ∧
    filter_coords_by_bbox (some cs) lat1 lon1 lat2 lon2 =
      cs.filter (inBbox lat1 lon1 lat2 lon2) ∧
    ∀ p : TrackPoint,
      p ∈ filter_coords_by_bbox (some cs) lat1 lon1 lat2 lon2 ↔
        p ∈ cs ∧ min lat1 lat2 ≤ p.lat ∧ p.lat ≤ max lat1 lat2 ∧
          min lon1 lon2 ≤ p.lon ∧ p.lon ≤ max lon1 lon2 := by
  refine ⟨?_, filter_coords_eq_filter cs lat1 lon1 lat2 lon2, ?_⟩
  · rw [filter_coords_eq_filter]
    exact List.filter_sublist cs
  · intro p
    rw [filter_coords_eq_filter, List.mem_filter, inBbox]
    simp

/-- C8: the bounding-box filter is invariant under swapping the two
diagonal corners, because the corners are normalized per axis by min/max. -/
theorem filter_bbox_corner_comm (coords : Option (List TrackPoint))
    (lat1 lon1 lat2 lon2 : ℚ) :
    filter_coords_by_bbox coords lat1 lon1 lat2 lon2 =
      filter_coords_by_bbox coords lat2 lon2 lat1 lon1 := by
  match coords with
  | none => rfl
  | some cs =>
    unfold filter_coords_by_bbox
    rw [min_comm lat2 lat1, max_comm lat2 lat1, min_comm lon2 lon1,
        max_comm lon2 lon1]

/-- C10: the filter accepts the parse-failure sentinel: on `none` input it
returns the empty list (for every corner pair) instead of failing. -/
theorem filter_bbox_none (lat1 lon1 lat2 lon2 : ℚ) :
    filter_coords_by_bbox none lat1 lon1 lat2 lon2 = [] := rfl

section PyRangeLemmas

/-- The number of indices Python's `range(0, L, S)` yields. -/
theorem pyRange_length (start stop step : ℕ) :
    (pyRange start stop step).length = (stop - start + step - 1) / step := by
  simp [pyRange]

/-- For a positive stop and positive step, `range(0, stop, step)` is
non-empty (it always contains index 0). -/
theorem pyRange_zero_ne_nil (L S : ℕ) (hL : 1 ≤ L) (hS : 1 ≤ S) :
    pyRange 0 L S ≠ [] := by
  intro h
  have hlen : (pyRange 0 L S).length = (L + S - 1) / S := by
    simp [pyRange]
  have h1 : 1 ≤ (L + S - 1) / S :=
    (Nat.le_div_iff_mul_le (by omega)).mpr (by omega)
  rw [h] at hlen
  simp at hlen
  omega

/-- The indices selected by `range(0, L, S)` are exactly the indices
`i < L` with `i % S = 0`, in increasing order. -/
theorem range_filter_mod (S : ℕ) (hS : 1 ≤ S) :
    ∀ L : ℕ, (List.range L).filter (fun i => i % S == 0) =
      List.range' 0 ((L + S - 1) / S) S
  | 0 => by
    have h0 : (S - 1) / S = 0 := Nat.div_eq_of_lt (by omega)
    simp [h0]
  | L + 1 => by
    have hS0 : 0 < S := hS
    have IH := range_filter_mod S hS L
    rw [List.range_succ, List.filter_append, IH]
    by_cases h : L % S = 0
    · obtain ⟨q, hq⟩ := Nat.dvd_of_mod_eq_zero h
      subst hq
      have e2 : (S * q + S - 1) / S = q := by
        rw [Nat.add_sub_assoc hS, Nat.mul_add_div hS0,
            Nat.div_eq_of_lt (by omega)]
        omega
      have e3 : (S * q + 1 + S - 1) / S = q + 1 := by
        have e : S * q + 1 + S - 1 = S * (q + 1) := by
          rw [Nat.mul_succ]
          generalize S * q = m
          omega
        rw [e, Nat.mul_div_cancel_left _ hS0]
      rw [e2, e3, List.range'_concat]
      simp
    · have key : ∀ q r : ℕ, S * q + r = L → r ≠ 0 → r < S →
          (L + S - 1) / S = q + 1 ∧ (L + 1 + S - 1) / S = q + 1 := by
        intro q r hL hr0 hrS
        subst hL
        constructor
        · have e : S * q + r + S - 1 = S * (q + 1) + (r - 1) := by
            rw [Nat.mul_succ]
            generalize S * q = m
            omega
          rw [e, Nat.mul_add_div hS0, Nat.div_eq_of_lt (by omega)]
        · have e : S * q + r + 1 + S - 1 = S * (q + 1) + r := by
            rw [Nat.mul_succ]
            generalize S * q = m
            omega
          rw [e, Nat.mul_add_div hS0, Nat.div_eq_of_lt hrS]
      obtain ⟨e2, e3⟩ :=
        key (L / S) (L % S) (Nat.div_add_mod L S) h (Nat.mod_lt _ hS0)
      rw [e2, e3]
      simp [h]

end PyRangeLemmas

section PlanBuilderLemmas

/-- On a non-empty input and positive stride, `create_plan_json` reaches
the success branch and returns the full document. -/
theorem create_plan_json_eq (c0 : TrackPoint) (rest : List TrackPoint)
    (S : ℕ) (alt r : ℚ) (hS : 1 ≤ S) :
    create_plan_json (c0 :: rest) S alt r = some
      { fileType := "Plan"
        groundStation := "QGroundControl"
        version := 1
        mission :=
          { cruiseSpeed := 5
            firmwareType := 4
            hoverSpeed := 5
            items := (List.enumFrom 1 (pyRange 0 (c0 :: rest).length S)).map
              (fun ki => mkItem ((c0 :: rest).getD ki.2 c0) ki.1 alt r)
            plannedHomePosition := [c0.lat, c0.lon, alt]
            vehicleType := 4
            version := 2 }
        geoFence := { circles := [], polygons := [], version := 1 }
        rallyPoints := { points := [], version := 1 } } := by
  have hne : ((List.enumFrom 1 (pyRange 0 (c0 :: rest).length S)).map
      (fun ki => mkItem ((c0 :: rest).getD ki.2 c0) ki.1 alt r)) ≠ [] := by
    intro h
    rw [List.map_eq_nil_iff, List.enumFrom_eq_nil] at h
    exact pyRange_zero_ne_nil _ _ (by simp) hS h
  simp only [create_plan_json]
  rw [if_neg hne]

/-- Indices below the length make `getD` independent of its default. -/
theorem getD_default_irrelevant (l : List TrackPoint) (i : ℕ)
    (h : i < l.length) (d1 d2 : TrackPoint) : l.getD i d1 = l.getD i d2 := by
  rw [List.getD_eq_getElem?_getD, List.getD_eq_getElem?_getD,
      List.getElem?_eq_getElem h]
  rfl

/-- The latitude/longitude parameter slots of the emitted items list exact
the stride-selected points, in order. -/
theorem items_map_coords (c : TrackPoint) (cs : List TrackPoint) (S : ℕ)
    (hS : 1 ≤ S) (alt r : ℚ) :
    ((List.enumFrom 1 (pyRange 0 (c :: cs).length S)).map
        (fun ki => mkItem ((c :: cs).getD ki.2 c) ki.1 alt r)).map
      (fun it => (it.param5, it.param6)) =
    ((List.range (c :: cs).length).filter (fun i => i % S == 0)).map
      (fun i => (((c :: cs).getD i default).lat, ((c :: cs).getD i default).lon)) := by
  rw [List.map_map]
  have h1 : ((fun it : PlanItem => (it.param5, it.param6)) ∘
      (fun ki : ℕ × ℕ => mkItem ((c :: cs).getD ki.2 c) ki.1 alt r)) =
      ((fun i => (((c :: cs).getD i c).lat, ((c :: cs).getD i c).lon)) ∘ Prod.snd) := by
    funext ki
    rfl
  rw [h1, ← List.map_map, List.enumFrom_map_snd]
  have h2 : pyRange 0 (c :: cs).length S =
      (List.range (c :: cs).length).filter (fun i => i % S == 0) := by
    rw [range_filter_mod S hS]
    simp [pyRange]
  rw [h2]
  apply List.map_congr_left
  intro i hi
  have : i < (c :: cs).length := by
    have := List.mem_range.mp (List.filter_sublist _ |>.subset hi)
    exact this
  rw [getD_default_irrelevant _ _ this]

end PlanBuilderLemmas

/-- C1: for every non-empty filtered point sequence, every stride ≥ 1 and
every default altitude, the produced plan's `plannedHomePosition` is
`[lat of first point, lon of first point, default altitude]` — taken from
the first pre-stride point; the right-hand side does not mention the
stride, so the home position is unchanged when only the stride changes. -/
theorem plan_home_position (c : TrackPoint) (cs : List TrackPoint)
    (step : ℕ) (hS : 1 ≤ step) (alt r : ℚ) :
    (create_plan_json (c :: cs) step alt r).map
        (fun p => p.mission.plannedHomePosition) =
      some [c.lat, c.lon, alt] := by
  rw [create_plan_json_eq c cs step alt r hS]
  rfl

/-- Witness for C1 at a concrete input: stride 3 on a 2-point list; the
home position comes from the first point with the default altitude 0. -/
theorem plan_home_position_witness :
    1 ≤ 3 ∧
    (create_plan_json [⟨41, -85, 7⟩, ⟨42, -84, 8⟩] 3 0 2).map
        (fun p => p.mission.plannedHomePosition) =
      some [41, -85, 0] :=
  ⟨by decide, plan_home_position ⟨41, -85, 7⟩ [⟨42, -84, 8⟩] 3 (by decide) 0 2⟩

/-- C3: for a non-empty filtered sequence of length `L` and stride `S ≥ 1`,
`create_plan_json` emits exactly `⌈L / S⌉ = (L + S - 1) / S` waypoint items,
and the emitted waypoints correspond, in order, exactly to the input points
at the 0-based indices `0, S, 2S, ...` below `L` (witnessed here through
their latitude/longitude parameter slots). -/
theorem plan_stride_selection (c : TrackPoint) (cs : List TrackPoint)
    (S : ℕ) (hS : 1 ≤ S) (alt r : ℚ) :
    (create_plan_json (c :: cs) S alt r).map
        (fun p => p.mission.items.map (fun it => (it.param5, it.param6))) =
      some (((List.range (c :: cs).length).filter (fun i => i % S == 0)).map
        (fun i => (((c :: cs).getD i default).lat,
                   ((c :: cs).getD i default).lon))) ∧
    (create_plan_json (c :: cs) S alt r).map
        (fun p => p.mission.items.length) =
      some (((c :: cs).length + S - 1) / S) := by
  rw [create_plan_json_eq c cs S alt r hS]
  constructor
  · rw [Option.map_some']
    exact congrArg some (items_map_coords c cs S hS alt r)
  · rw [Option.map_some']
    simp [pyRange]

/-- Witness for C3: a 3-point list with stride 2 selects the points at
indices 0 and 2, so ceil(3/2) = 2 items carrying those coordinates. -/
theorem plan_stride_selection_witness :
    (create_plan_json [⟨1, 10, 5⟩, ⟨2, 20, 6⟩, ⟨3, 30, 7⟩] 2 0 2).map
        (fun p => p.mission.items.map (fun it => (it.param5, it.param6))) =
      some [(1, 10), (3, 30)] ∧
    (create_plan_json [⟨1, 10, 5⟩, ⟨2, 20, 6⟩, ⟨3, 30, 7⟩] 2 0 2).map
        (fun p => p.mission.items.length) = some 2 := by
  have h := plan_stride_selection ⟨1, 10, 5⟩ [⟨2, 20, 6⟩, ⟨3, 30, 7⟩] 2
    (by decide) 0 2
  refine ⟨?_, ?_⟩
  · rw [h.1]
    decide
  · rw [h.2]
    decide

/-- C4: in every produced plan the `doJumpId` values of the emitted items
are exactly `1, 2, ..., count` in order with no gaps; every item's
`Altitude` field and 7th parameter equal the configured default altitude
(never the source point's parsed altitude); the 4th parameter (desired
yaw) is null; and the 5th/6th parameters are the selected point's latitude
and longitude. -/
theorem plan_item_schema (c : TrackPoint) (cs : List TrackPoint)
    (S : ℕ) (hS : 1 ≤ S) (alt r : ℚ) :
    (create_plan_json (c :: cs) S alt r).map
        (fun p => p.mission.items.map (fun it => it.doJumpId)) =
      some (List.range' 1 (((c :: cs).length + S - 1) / S)) ∧
    (create_plan_json (c :: cs) S alt r).map
        (fun p => p.mission.items.map (fun it => it.altitude)) =
      some (List.replicate (((c :: cs).length + S - 1) / S) alt) ∧
    (create_plan_json (c :: cs) S alt r).map
        (fun p => p.mission.items.map (fun it => it.param4)) =
      some (List.replicate (((c :: cs).length + S - 1) / S) (none : Option ℚ)) ∧
    (create_plan_json (c :: cs) S alt r).map
        (fun p => p.mission.items.map (fun it => it.param7)) =
      some (List.replicate (((c :: cs).length + S - 1) / S) alt) ∧
    (create_plan_json (c :: cs) S alt r).map
        (fun p => p.mission.items.map (fun it => (it.param5, it.param6))) =
      some (((List.range (c :: cs).length).filter (fun i => i % S == 0)).map
        (fun i => (((c :: cs).getD i default).lat,
                   ((c :: cs).getD i default).lon))) := by
  have hlen : (pyRange 0 (c :: cs).length S).length =
      ((c :: cs).length + S - 1) / S := by
    simp [pyRange]
  rw [create_plan_json_eq c cs S alt r hS]
  refine ⟨?_, ?_, ?_, ?_, ?_⟩ <;> rw [Option.map_some'] <;>
    refine congrArg some ?_ <;> dsimp only
  · rw [List.map_map]
    have h : ((fun it : PlanItem => it.doJumpId) ∘
        (fun ki : ℕ × ℕ => mkItem ((c :: cs).getD ki.2 c) ki.1 alt r)) =
        Prod.fst := by
      funext ki
      rfl
    rw [h, List.enumFrom_map_fst, hlen]
  · rw [List.map_map]
    have h : ((fun it : PlanItem => it.altitude) ∘
        (fun ki : ℕ × ℕ => mkItem ((c :: cs).getD ki.2 c) ki.1 alt r)) =
        fun _ => alt := by
      funext ki
      rfl
    rw [h, List.map_const', List.enumFrom_length, hlen]
  · rw [List.map_map]
    have h : ((fun it : PlanItem => it.param4) ∘
        (fun ki : ℕ × ℕ => mkItem ((c :: cs).getD ki.2 c) ki.1 alt r)) =
        fun _ => (none : Option ℚ) := by
      funext ki
      rfl
    rw [h, List.map_const', List.enumFrom_length, hlen]
  · rw [List.map_map]
    have h : ((fun it : PlanItem => it.param7) ∘
        (fun ki : ℕ × ℕ => mkItem ((c :: cs).getD ki.2 c) ki.1 alt r)) =
        fun _ => alt := by
      funext ki
      rfl
    rw [h, List.map_const', List.enumFrom_length, hlen]
  · exact items_map_coords c cs S hS alt r
/-- Witness for C4: with stride 1 on a 2-point list whose parsed altitudes
are 9 and 8 but default altitude 0, the plan's items have doJumpIds [1, 2],
altitudes [0, 0], null yaws, and the points' coordinates. -/
theorem plan_item_schema_witness :
    (create_plan_json [⟨4, 40, 9⟩, ⟨5, 50, 8⟩] 1 0 2).map
        (fun p => p.mission.items.map (fun it => it.doJumpId)) =
      some [1, 2] ∧
    (create_plan_json [⟨4, 40, 9⟩, ⟨5, 50, 8⟩] 1 0 2).map
        (fun p => p.mission.items.map (fun it => it.altitude)) =
      some [0, 0] ∧
    (create_plan_json [⟨4, 40, 9⟩, ⟨5, 50, 8⟩] 1 0 2).map
        (fun p => p.mission.items.map (fun it => it.param4)) =
      some [none, none] ∧
    (create_plan_json [⟨4, 40, 9⟩, ⟨5, 50, 8⟩] 1 0 2).map
        (fun p => p.mission.items.map (fun it => (it.param5, it.param6))) =
      some [(4, 40), (5, 50)] := by
  have h := plan_item_schema ⟨4, 40, 9⟩ [⟨5, 50, 8⟩] 1 (by decide) 0 2
  refine ⟨?_, ?_, ?_, ?_⟩
  · rw [h.1]
    decide
  · rw [h.2.1]
    decide
  · rw [h.2.2.1]
    decide
  · rw [h.2.2.2.2]
    decide

/-- C5: `create_plan_json` returns the failure outcome `none` iff its input
coordinate list is empty: for every non-empty input and stride ≥ 1 it
produces a plan, so the post-loop "no waypoints generated" branch is
unreachable under those preconditions. -/
theorem plan_none_iff_empty (coords : List TrackPoint) (step : ℕ)
    (hS : 1 ≤ step) (alt r : ℚ) :
    create_plan_json coords step alt r = none ↔ coords = [] := by
  constructor
  · intro h
    match coords with
    | [] => rfl
    | c0 :: rest =>
      rw [create_plan_json_eq c0 rest step alt r hS] at h
      exact Option.noConfusion h
  · intro h
    subst h
    rfl

/-- Witness for C5: the empty list maps to `none`, and a one-point list
with stride 1 does not. -/
theorem plan_none_iff_empty_witness :
    create_plan_json [] 1 0 2 = none ∧
    create_plan_json [⟨1, 2, 3⟩] 1 0 2 ≠ none :=
  ⟨(plan_none_iff_empty [] 1 (by decide) 0 2).mpr rfl,
   fun h => List.noConfusion
     ((plan_none_iff_empty [⟨1, 2, 3⟩] 1 (by decide) 0 2).mp h)⟩

/-- A child element of a track-point element (such as the elevation
element): a tag and optional text.  Text is modelled by the result of
attempting Python's `float()` on it: `none` means no text at all
(`elem.text is None`), `some none` means text present but not numeric,
`some (some q)` means numeric text with value `q`. -/
structure ChildElem where
  tag : String
  text : Option (Option ℚ)
  deriving DecidableEq, Repr

/-- One element of the parsed tree: tag, attributes (attribute values are
modelled by their `float()` parse result, `none` = non-numeric string; a
missing attribute is simply absent from the list), and child elements. -/
structure Elem where
  tag : String
  attrs : List (String × Option ℚ)
  children : List ChildElem
  deriving DecidableEq, Repr

/-- A successfully parsed XML document: the root element's tag plus the
elements of the tree in document (preorder) order — `root.iter(tag)`
scans exactly this sequence, keeping the elements whose tag matches. -/
structure XmlDoc where
  rootTag : String
  elems : List Elem
  deriving DecidableEq, Repr

/-- Python `s.split(c)[0]`: the characters before the first occurrence of
`c` (the whole string when `c` does not occur). -/
def pySplitHead (c : Char) (l : List Char) : List Char :=
  l.takeWhile (fun x => x != c)

/-- Python `s.strip(c)`: remove leading and trailing copies of `c`. -/
def pyStrip (c : Char) (l : List Char) : List Char :=
  ((l.dropWhile (fun x => x == c)).reverse.dropWhile (fun x => x == c)).reverse

/-- Python's substring test `pat in s`. -/
def listContains (pat : List Char) : List Char → Bool
  | [] => pat.isEmpty
  | c :: t => pat.isPrefixOf (c :: t) || listContains pat t

/-- Namespace detection of `parse_gpx` (gps_parser.py lines 21-24):
`if root.tag.startswith("{") and "}gpx" in root.tag:
   ns = root.tag.split("}")[0].strip("{")`.
`none` models Python's `ns = None`. -/
def detectNs (rootTag : String) : Option String :=
  if rootTag.data.head? = some '{' ∧
      listContains "\x7dgpx".data rootTag.data = true then
    some (String.mk (pyStrip '{' (pySplitHead '}' rootTag.data)))
  else none

/-- The tag-qualification helper `nstag` (gps_parser.py lines 27-30):
under a detected namespace the tag is wrapped in the brace-qualified form;
Python's truthiness test (`if ns:`) makes an empty namespace string behave
like no namespace. -/
def nstag (ns : Option String) (tag : String) : String :=
  match ns with
  | some s => if s = "" then tag else "\x7b" ++ s ++ "\x7d" ++ tag
  | none => tag

/-- Python `float(elem.attrib[name])`: `none` when the attribute is
missing (`KeyError`), `some none` when present but non-numeric
(`ValueError`), `some (some q)` when numeric. -/
def attrFloat (e : Elem) (name : String) : Option (Option ℚ) :=
  (e.attrs.find? (fun kv => kv.1 = name)).map Prod.snd

/-- `elem.find(tag)`: the first direct child with the given tag. -/
def findChild (e : Elem) (tag : String) : Option ChildElem :=
  e.children.find? (fun ch => ch.tag = tag)

/-- Per-point extraction of the loop body of `parse_gpx` (gps_parser.py
lines 36-55): missing or non-numeric `lat`/`lon` skips the point
(`KeyError`/`ValueError` caught with `continue`); a missing elevation
child, missing text, or non-numeric text leaves the default altitude
0.0. -/
def parseTrkpt (eleTag : String) (e : Elem) : Option TrackPoint :=
  match attrFloat e "lat" with
  | none => none
  | some none => none
  | some (some lat) =>
    match attrFloat e "lon" with
    | none => none
    | some none => none
    | some (some lon) =>
      let alt : ℚ :=
        match findChild e eleTag with
        | none => 0
        | some ch =>
          match ch.text with
          | some (some a) => a
          | some none => 0
          | none => 0
      some ⟨lat, lon, alt⟩

/-- Embedding of `parse_gpx` after a successful document parse
(gps_parser.py lines 21-57): detect the namespace from the root tag, scan
every element of the tree for the (namespace-qualified) track-point tag,
and extract each point, skipping per-point failures. -/
def parse_gpx (d : XmlDoc) : List TrackPoint :=
  let ns := detectNs d.rootTag
  (d.elems.filter (fun e => e.tag = nstag ns "trkpt")).filterMap
    (parseTrkpt (nstag ns "ele"))

/-- Qualify every tag of a document with namespace `ns`, producing the
namespaced variant of the same logical document. -/
def addNs (ns : String) (d : XmlDoc) : XmlDoc :=
  { rootTag := "\x7b" ++ ns ++ "\x7d" ++ d.rootTag
    elems := d.elems.map (fun e =>
      { tag := "\x7b" ++ ns ++ "\x7d" ++ e.tag
        attrs := e.attrs
        children := e.children.map (fun ch =>
          { tag := "\x7b" ++ ns ++ "\x7d" ++ ch.tag
            text := ch.text }) }) }

/-- The float-parse of attribute `name`, collapsing "missing" and
"non-numeric" into `none`. -/
def numAttr (e : Elem) (name : String) : Option ℚ :=
  (attrFloat e name).bind id

/-- A track-point element is usable iff both `lat` and `lon` parse. -/
def validTrkpt (e : Elem) : Bool :=
  (numAttr e "lat").isSome && (numAttr e "lon").isSome

/-- The altitude assigned to a kept un-namespaced point: its elevation
child's numeric text, or 0.0 when the child is absent or its text is
missing or non-numeric. -/
def eleAlt (e : Elem) : ℚ :=
  match findChild e "ele" with
  | none => 0
  | some ch =>
    match ch.text with
    | some (some a) => a
    | some none => 0
    | none => 0

/-- The point produced from a usable un-namespaced track-point element. -/
def trkptPoint (e : Elem) : TrackPoint :=
  ⟨(numAttr e "lat").getD 0, (numAttr e "lon").getD 0, eleAlt e⟩

section ParserLemmas

/-- The per-point extractor succeeds exactly on usable points, yielding
the lat/lon attribute values and the defaulted altitude. -/
theorem parseTrkpt_eq (e : Elem) :
    parseTrkpt "ele" e = if validTrkpt e then some (trkptPoint e) else none := by
  unfold parseTrkpt validTrkpt trkptPoint numAttr eleAlt
  match h1 : attrFloat e "lat" with
  | none => simp [h1]
  | some none => simp [h1]
  | some (some lat) =>
    match h2 : attrFloat e "lon" with
    | none => simp [h1, h2]
    | some none => simp [h1, h2]
    | some (some lon) => simp [h1, h2]

/-- Collecting the per-point results discards exactly the unusable
points. -/
theorem filterMap_parseTrkpt (l : List Elem) :
    l.filterMap (parseTrkpt "ele") = (l.filter validTrkpt).map trkptPoint := by
  induction l with
  | nil => rfl
  | cons e t IH =>
    rw [List.filterMap_cons, parseTrkpt_eq e, List.filter_cons]
    by_cases h : validTrkpt e = true
    · simp [h, IH]
    · simp [h, IH]

end ParserLemmas

/-- C6: for an un-namespaced track document, `parse_gpx` returns exactly
the usable track-points in document order: an element whose `lat` or `lon`
attribute is missing or non-numeric is skipped without aborting the parse,
while one with valid `lat`/`lon` but absent or non-numeric altitude text
is kept with altitude 0.0; interspersed malformed elements therefore never
change the count of parsed points (N usable among N + M track-point
elements yield exactly N points). -/
theorem parse_gpx_resilience (es : List Elem) :
    parse_gpx ⟨"gpx", es⟩ =
      ((es.filter (fun e => e.tag = "trkpt")).filter validTrkpt).map trkptPoint ∧
    (parse_gpx ⟨"gpx", es⟩).length =
      ((es.filter (fun e => e.tag = "trkpt")).filter validTrkpt).length := by
  have hns : detectNs "gpx" = none := by decide
  have hmain : parse_gpx ⟨"gpx", es⟩ =
      ((es.filter (fun e => e.tag = "trkpt")).filter validTrkpt).map trkptPoint := by
    unfold parse_gpx
    rw [hns]
    exact filterMap_parseTrkpt _
  exact ⟨hmain, by rw [hmain, List.length_map]⟩

section NamespaceLemmas

/-- Every list is a prefix of itself (Boolean version). -/
theorem isPrefixOf_self : ∀ l : List Char, l.isPrefixOf l = true
  | [] => rfl
  | c :: t => by simp [List.isPrefixOf, isPrefixOf_self t]

/-- A pattern occurring as a suffix is found by the substring test. -/
theorem listContains_append_self (pat : List Char) :
    ∀ pre : List Char, listContains pat (pre ++ pat) = true
  | [] => by
    cases pat with
    | nil => rfl
    | cons c t => simp [listContains, isPrefixOf_self]
  | c :: pre => by
    simp [listContains, listContains_append_self pat pre]

/-- `takeWhile` collects a satisfying block up to the first failing
element. -/
theorem takeWhile_append_stop (P : Char → Bool) (x : Char) (hx : P x = false) :
    ∀ (l r : List Char), (∀ c ∈ l, P c = true) →
      (l ++ x :: r).takeWhile P = l
  | [], r, _ => by simp [List.takeWhile_cons, hx]
  | c :: t, r, h => by
    have hc : P c = true := h c (by simp)
    have IH := takeWhile_append_stop P x hx t r (fun d hd => h d (by simp [hd]))
    simp [hc, IH]

/-- `dropWhile` leaves a list whose elements all fail the predicate. -/
theorem dropWhile_all_false (P : Char → Bool) (l : List Char)
    (h : ∀ c ∈ l, P c = false) : l.dropWhile P = l := by
  cases l with
  | nil => rfl
  | cons c t => simp [List.dropWhile_cons, h c (by simp)]

/-- Namespace detection recovers the namespace from a qualified root tag
(for a non-degenerate namespace string without braces). -/
theorem detectNs_qualified (ns : String)
    (hbr : ∀ ch ∈ ns.data, ch ≠ '{' ∧ ch ≠ '}') :
    detectNs ("\x7b" ++ ns ++ "\x7d" ++ "gpx") = some ns := by
  have hdata : ("\x7b" ++ ns ++ "\x7d" ++ "gpx").data =
      '{' :: (ns.data ++ '}' :: ('g' :: 'p' :: 'x' :: [])) := by
    show ((("\x7b".data ++ ns.data) ++ "\x7d".data) ++ "gpx".data) = _
    simp
  unfold detectNs
  rw [hdata]
  have hcontains : listContains "\x7dgpx".data
      ('{' :: (ns.data ++ '}' :: ('g' :: 'p' :: 'x' :: []))) = true := by
    have h1 : '{' :: (ns.data ++ '}' :: ('g' :: 'p' :: 'x' :: [])) =
        ('{' :: ns.data) ++ "\x7dgpx".data := by simp
    rw [h1]
    exact listContains_append_self _ _
  rw [if_pos ⟨rfl, hcontains⟩]
  have hsplit : pySplitHead '}'
      ('{' :: (ns.data ++ '}' :: ('g' :: 'p' :: 'x' :: []))) = '{' :: ns.data := by
    unfold pySplitHead
    rw [List.takeWhile_cons]
    have hbrace : ('{' != '}') = true := by decide
    rw [hbrace]
    simp only [if_true]
    rw [takeWhile_append_stop _ '}' (by decide) ns.data _
      (fun c hc => by
        have := (hbr c hc).2
        simp [this])]
  rw [hsplit]
  have hstrip : pyStrip '{' ('{' :: ns.data) = ns.data := by
    unfold pyStrip
    have h1 : List.dropWhile (fun x => x == '{') ('{' :: ns.data) =
        List.dropWhile (fun x => x == '{') ns.data := by
      simp [List.dropWhile_cons]
    rw [h1]
    rw [dropWhile_all_false (fun x => x == '{') ns.data (fun c hc => by
      have := (hbr c hc).1
      simp [this])]
    rw [dropWhile_all_false (fun x => x == '{') ns.data.reverse (fun c hc => by
      have := (hbr c (List.mem_reverse.mp hc)).1
      simp [this])]
    exact List.reverse_reverse _
  rw [hstrip]

/-- Qualifying with a non-empty namespace wraps tags in braces. -/
theorem nstag_some (ns : String) (hns : ns ≠ "") (tag : String) :
    nstag (some ns) tag = "\x7b" ++ ns ++ "\x7d" ++ tag := by
  show (if ns = "" then tag else "\x7b" ++ ns ++ "\x7d" ++ tag) = _
  rw [if_neg hns]

/-- String append is left-cancellative. -/
theorem string_append_cancel_left (pre a b : String)
    (h : pre ++ a = pre ++ b) : a = b := by
  have hd := congrArg String.data h
  rw [String.data_append, String.data_append] at hd
  exact String.ext (List.append_cancel_left hd)

/-- The per-point extractor is oblivious to uniform namespace
qualification of the element and its children. -/
theorem parseTrkpt_addNs (ns : String) (e : Elem) :
    parseTrkpt ("\x7b" ++ ns ++ "\x7d" ++ "ele")
      { tag := "\x7b" ++ ns ++ "\x7d" ++ e.tag
        attrs := e.attrs
        children := e.children.map (fun ch =>
          { tag := "\x7b" ++ ns ++ "\x7d" ++ ch.tag
            text := ch.text }) } =
    parseTrkpt "ele" e := by
  have hfind : findChild
      { tag := "\x7b" ++ ns ++ "\x7d" ++ e.tag
        attrs := e.attrs
        children := e.children.map (fun ch =>
          ({ tag := "\x7b" ++ ns ++ "\x7d" ++ ch.tag
             text := ch.text } : ChildElem)) }
      ("\x7b" ++ ns ++ "\x7d" ++ "ele") =
      (findChild e "ele").map (fun ch =>
        { tag := "\x7b" ++ ns ++ "\x7d" ++ ch.tag
          text := ch.text }) := by
    unfold findChild
    dsimp only
    rw [List.find?_map]
    refine congrArg (Option.map _) (congrArg (fun P => List.find? P e.children) ?_)
    funext ch
    dsimp only [Function.comp]
    refine decide_eq_decide.mpr ?_
    constructor
    · intro h
      exact string_append_cancel_left _ _ _ h
    · intro h
      rw [h]
  have hattr : ∀ name : String, attrFloat
      { tag := "\x7b" ++ ns ++ "\x7d" ++ e.tag
        attrs := e.attrs
        children := e.children.map (fun ch =>
          ({ tag := "\x7b" ++ ns ++ "\x7d" ++ ch.tag
             text := ch.text } : ChildElem)) } name = attrFloat e name :=
    fun _ => rfl
  unfold parseTrkpt
  rw [hattr "lat", hattr "lon", hfind]
  cases hlat : attrFloat e "lat" with
  | none => rfl
  | some olat =>
    cases olat with
    | none => rfl
    | some lat =>
      cases hlon : attrFloat e "lon" with
      | none => rfl
      | some olon =>
        cases olon with
        | none => rfl
        | some lon =>
          cases hfc : findChild e "ele" with
          | none => rfl
          | some ch =>
            cases htext : ch.text with
            | none => rfl
            | some ot =>
              cases ot with
              | none => rfl
              | some a => rfl

end NamespaceLemmas

/-- C7: parsing the same logical track-point sequence from a document
whose root carries an XML namespace and from the unnamespaced document
yields identical point sequences: the detected namespace is applied
uniformly to the track-point tag lookup and to the elevation child
lookup.  The namespace URI is assumed non-empty and brace-free, as any
real XML namespace URI is. -/
theorem parse_gpx_namespace_invariance (d : XmlDoc) (ns : String)
    (hroot : d.rootTag = "gpx") (hns : ns ≠ "")
    (hbr : ∀ ch ∈ ns.data, ch ≠ '{' ∧ ch ≠ '}') :
    parse_gpx (addNs ns d) = parse_gpx d := by
  obtain ⟨rt, es⟩ := d
  dsimp only at hroot
  subst hroot
  have hng : detectNs "gpx" = none := by decide
  have hnone : ∀ t, nstag none t = t := fun _ => rfl
  simp only [parse_gpx, addNs, detectNs_qualified ns hbr, hng,
    nstag_some ns hns, hnone]
  rw [List.filter_map, List.filterMap_map]
  have hpred : ((fun e : Elem =>
      decide (e.tag = "\x7b" ++ ns ++ "\x7d" ++ "trkpt")) ∘
      (fun e : Elem =>
        ({ tag := "\x7b" ++ ns ++ "\x7d" ++ e.tag
           attrs := e.attrs
           children := e.children.map (fun ch =>
             { tag := "\x7b" ++ ns ++ "\x7d" ++ ch.tag
               text := ch.text }) } : Elem))) =
      fun e : Elem => decide (e.tag = "trkpt") := by
    funext e
    dsimp only [Function.comp]
    refine decide_eq_decide.mpr ?_
    constructor
    · intro h
      exact string_append_cancel_left _ _ _ h
    · intro h
      rw [h]
  have hcomp : ((parseTrkpt ("\x7b" ++ ns ++ "\x7d" ++ "ele")) ∘
      (fun e : Elem =>
        ({ tag := "\x7b" ++ ns ++ "\x7d" ++ e.tag
           attrs := e.attrs
           children := e.children.map (fun ch =>
             { tag := "\x7b" ++ ns ++ "\x7d" ++ ch.tag
               text := ch.text }) } : Elem))) = parseTrkpt "ele" := by
    funext e
    exact parseTrkpt_addNs ns e
  rw [hpred, hcomp]

/-- Witness for C7: a one-trkpt document parsed with and without the
standard GPX namespace on every tag. -/
theorem parse_gpx_namespace_invariance_witness :
    ("http://www.topografix.com/GPX/1/1" : String) ≠ "" ∧
    parse_gpx (addNs "http://www.topografix.com/GPX/1/1"
      ⟨"gpx", [⟨"trkpt", [("lat", some 1), ("lon", some 2)],
               [⟨"ele", some (some 5)⟩]⟩]⟩) =
    parse_gpx ⟨"gpx", [⟨"trkpt", [("lat", some 1), ("lon", some 2)],
               [⟨"ele", some (some 5)⟩]⟩]⟩ :=
  ⟨by decide,
   parse_gpx_namespace_invariance _ _ rfl (by decide) (by decide)⟩

/-- The environment of one CLI invocation, with the outside world
abstracted: `argc` is `len(sys.argv)`; `stepArg` is the result of
`int(sys.argv[2])` (`none` = not an integer); the four corner arguments
are the results of `float(sys.argv[i])`; `gpxResult` is what `parse_gpx`
returned for the input file (`none` = file unreadable or markup
unparsable); `writeOk` tells whether writing the output file succeeds. -/
structure MainEnv where
  argc : ℕ
  stepArg : Option ℤ
  lat1Arg : Option ℚ
  lon1Arg : Option ℚ
  lat2Arg : Option ℚ
  lon2Arg : Option ℚ
  gpxResult : Option (List TrackPoint)
  writeOk : Bool
  deriving DecidableEq, Repr

/-- The observable outcome of one invocation: the process exit code and
whether a complete output file was written. -/
structure MainOutcome where
  exitCode : ℕ
  wroteFile : Bool
  deriving DecidableEq, Repr

/-- Embedding of `main` (gps_parser.py lines 159-221): usage check, stride
and coordinate validation (exit 1), parse failure or zero usable points
(exit 2), graceful exit 0 with no file when the box is empty, plan
construction failure (exit 4), write failure (exit 5), success (exit 0).
The plan is built with `default_alt=0.0` and `acceptance_radius=2.0` as in
the source. -/
def mainRun (env : MainEnv) : MainOutcome :=
  if env.argc < 8 then ⟨1, false⟩
  else
    match env.stepArg with
    | none => ⟨1, false⟩
    | some step =>
      if step < 1 then ⟨1, false⟩
      else
        match env.lat1Arg, env.lon1Arg, env.lat2Arg, env.lon2Arg with
        | some lat1, some lon1, some lat2, some lon2 =>
          match env.gpxResult with
          | none => ⟨2, false⟩
          | some coords =>
            if coords = [] then ⟨2, false⟩
            else
              let box := filter_coords_by_bbox (some coords) lat1 lon1 lat2 lon2
              if box = [] then ⟨0, false⟩
              else
                match create_plan_json box step.toNat 0 2 with
                | none => ⟨4, false⟩
                | some _ => if env.writeOk then ⟨0, true⟩ else ⟨5, false⟩
        | _, _, _, _ => ⟨1, false⟩

/-- Well-formed numeric arguments: enough of them, an integer stride of at
least 1, and four parseable corner coordinates. -/
def ArgsOk (env : MainEnv) (s : ℤ) (lat1 lon1 lat2 lon2 : ℚ) : Prop :=
  8 ≤ env.argc ∧ env.stepArg = some s ∧ 1 ≤ s ∧
  env.lat1Arg = some lat1 ∧ env.lon1Arg = some lon1 ∧
  env.lat2Arg = some lat2 ∧ env.lon2Arg = some lon2

/-- C9: the driver's exit-code taxonomy holds for every invocation:
exit 1 for bad arguments (too few, non-integer or non-positive stride,
non-float coordinates); exit 2 when the input file is unreadable or
unparsable or contains zero usable points; exit 0 with no output file
when no points fall inside the bounding box; exit 4 when plan
construction fails after filtering; exit 5 when writing the output fails;
exit 0 with the file written on success; and no other exit code ever
occurs. -/
theorem main_exit_taxonomy (env : MainEnv) :
    (env.argc < 8 → mainRun env = ⟨1, false⟩) ∧
    (8 ≤ env.argc → env.stepArg = none → mainRun env = ⟨1, false⟩) ∧
    (∀ s : ℤ, 8 ≤ env.argc → env.stepArg = some s → s < 1 →
      mainRun env = ⟨1, false⟩) ∧
    (∀ s : ℤ, 8 ≤ env.argc → env.stepArg = some s → 1 ≤ s →
      (env.lat1Arg = none ∨ env.lon1Arg = none ∨ env.lat2Arg = none ∨
        env.lon2Arg = none) → mainRun env = ⟨1, false⟩) ∧
    (∀ s lat1 lon1 lat2 lon2, ArgsOk env s lat1 lon1 lat2 lon2 →
      env.gpxResult = none → mainRun env = ⟨2, false⟩) ∧
    (∀ s lat1 lon1 lat2 lon2, ArgsOk env s lat1 lon1 lat2 lon2 →
      env.gpxResult = some [] → mainRun env = ⟨2, false⟩) ∧
    (∀ s lat1 lon1 lat2 lon2 coords, ArgsOk env s lat1 lon1 lat2 lon2 →
      env.gpxResult = some coords → coords ≠ [] →
      filter_coords_by_bbox (some coords) lat1 lon1 lat2 lon2 = [] →
      mainRun env = ⟨0, false⟩) ∧
    (∀ s lat1 lon1 lat2 lon2 coords, ArgsOk env s lat1 lon1 lat2 lon2 →
      env.gpxResult = some coords → coords ≠ [] →
      filter_coords_by_bbox (some coords) lat1 lon1 lat2 lon2 ≠ [] →
      create_plan_json
        (filter_coords_by_bbox (some coords) lat1 lon1 lat2 lon2)
        s.toNat 0 2 = none →
      mainRun env = ⟨4, false⟩) ∧
    (∀ s lat1 lon1 lat2 lon2 coords, ArgsOk env s lat1 lon1 lat2 lon2 →
      env.gpxResult = some coords → coords ≠ [] →
      filter_coords_by_bbox (some coords) lat1 lon1 lat2 lon2 ≠ [] →
      (create_plan_json
        (filter_coords_by_bbox (some coords) lat1 lon1 lat2 lon2)
        s.toNat 0 2).isSome = true →
      env.writeOk = false → mainRun env = ⟨5, false⟩) ∧
    (∀ s lat1 lon1 lat2 lon2 coords, ArgsOk env s lat1 lon1 lat2 lon2 →
      env.gpxResult = some coords → coords ≠ [] →
      filter_coords_by_bbox (some coords) lat1 lon1 lat2 lon2 ≠ [] →
      (create_plan_json
        (filter_coords_by_bbox (some coords) lat1 lon1 lat2 lon2)
        s.toNat 0 2).isSome = true →
      env.writeOk = true → mainRun env = ⟨0, true⟩) ∧
    ((mainRun env).exitCode = 0 ∨ (mainRun env).exitCode = 1 ∨
     (mainRun env).exitCode = 2 ∨ (mainRun env).exitCode = 4 ∨
     (mainRun env).exitCode = 5) := by
  refine ⟨?_, ?_, ?_, ?_, ?_, ?_, ?_, ?_, ?_, ?_, ?_⟩
  · intro h
    simp [mainRun, h]
  · intro h8 hst
    simp [mainRun, Nat.not_lt.mpr h8, hst]
  · intro s h8 hst hs
    simp [mainRun, Nat.not_lt.mpr h8, hst, hs]
  · intro s h8 hst hs1 hnone
    have hns : ¬ s < 1 := by omega
    rcases hnone with h | h | h | h <;>
      cases hA : env.lat1Arg <;> cases hB : env.lon1Arg <;>
      cases hC : env.lat2Arg <;> cases hD : env.lon2Arg <;>
      simp_all [mainRun, Nat.not_lt.mpr h8]
  · intro s lat1 lon1 lat2 lon2 h hg
    obtain ⟨h8, hst, hs1, ha, hb, hc, hd⟩ := h
    have hns : ¬ s < 1 := by omega
    simp [mainRun, Nat.not_lt.mpr h8, hst, hns, ha, hb, hc, hd, hg]
  · intro s lat1 lon1 lat2 lon2 h hg
    obtain ⟨h8, hst, hs1, ha, hb, hc, hd⟩ := h
    have hns : ¬ s < 1 := by omega
    simp [mainRun, Nat.not_lt.mpr h8, hst, hns, ha, hb, hc, hd, hg]
  · intro s lat1 lon1 lat2 lon2 coords h hg hne hbox
    obtain ⟨h8, hst, hs1, ha, hb, hc, hd⟩ := h
    have hns : ¬ s < 1 := by omega
    simp [mainRun, Nat.not_lt.mpr h8, hst, hns, ha, hb, hc, hd, hg, hne, hbox]
  · intro s lat1 lon1 lat2 lon2 coords h hg hne hbox hplan
    obtain ⟨h8, hst, hs1, ha, hb, hc, hd⟩ := h
    have hns : ¬ s < 1 := by omega
    simp [mainRun, Nat.not_lt.mpr h8, hst, hns, ha, hb, hc, hd, hg, hne,
      hbox, hplan]
  · intro s lat1 lon1 lat2 lon2 coords h hg hne hbox hplan hw
    obtain ⟨h8, hst, hs1, ha, hb, hc, hd⟩ := h
    have hns : ¬ s < 1 := by omega
    obtain ⟨p, hp⟩ := Option.isSome_iff_exists.mp hplan
    simp [mainRun, Nat.not_lt.mpr h8, hst, hns, ha, hb, hc, hd, hg, hne,
      hbox, hp, hw]
  · intro s lat1 lon1 lat2 lon2 coords h hg hne hbox hplan hw
    obtain ⟨h8, hst, hs1, ha, hb, hc, hd⟩ := h
    have hns : ¬ s < 1 := by omega
    obtain ⟨p, hp⟩ := Option.isSome_iff_exists.mp hplan
    simp [mainRun, Nat.not_lt.mpr h8, hst, hns, ha, hb, hc, hd, hg, hne,
      hbox, hp, hw]
  · simp only [mainRun]
    repeat' split
    all_goals simp

/-- Witness for C9: an invocation with valid arguments whose input file
fails to parse exits with code 2 and writes nothing. -/
theorem main_exit_taxonomy_witness :
    mainRun ⟨8, some 1, some 0, some 0, some 1, some 1, none, true⟩ =
      ⟨2, false⟩ :=
  (main_exit_taxonomy _).2.2.2.2.1 1 0 0 1 1
    ⟨by decide, rfl, by decide, rfl, rfl, rfl, rfl⟩ rfl
